import Mathlib

/-!
A verification development for the land-records analysis application
(`src/app.py`).  The program joins a boundary table with two CSV attribute
tables on a region-name key, derives four numeric indicator columns from
string-formatted source columns, classifies each indicator through ordered
threshold rules into recommendation strings, and builds one map overlay per
theme.

The embedding models the pandas data of the program:

* a cell is an optional value (`none` is pandas `NaN`),
* a column is either string-typed (object dtype) or numeric-typed
  (float dtype); numbers are exact rationals, since every numeric value in
  the program originates from a finite decimal string,
* fallible steps (`KeyError` on a missing column, `ValueError` from
  `astype(float)`, `AttributeError` from the `.str` accessor on a numeric
  column, incompatible merge key dtypes) return `Except.error`,
* `DataFrame.merge(…, how='left')` emits, for every left row, one output
  row per matching right row, and a single all-null-attributes row when
  there is no match,
* `read_csv` infers a numeric dtype for a column exactly when every
  non-null cell parses as a plain decimal number.

Rational constants are written with `mkRat` (e.g. `mkRat 541 10` for the
threshold `54.1`) because decimal literals elaborate through
`Rat.ofScientific`, which does not reduce definitionally.
-/

deriving instance DecidableEq for Except

namespace App

/-- Value of a list of decimal digit characters, most significant first. -/
def digitsVal (l : List Char) : Nat :=
  l.foldl (fun acc c => 10 * acc + (c.toNat - 48)) 0

/-- Model of Python `float(s)` on finite decimal strings: an optional sign
followed by an integer part and an optional fractional part, at least one
digit overall.  (Exponents, `inf`/`nan` words and surrounding whitespace are
never produced by the data this program touches and are not modelled.)
`none` is a `ValueError`. -/
def parseFloat (s : String) : Option ℚ :=
  let go : List Char → Option ℚ := fun cs =>
    let ip := cs.takeWhile (fun c => c.isDigit)
    let rest := cs.dropWhile (fun c => c.isDigit)
    match rest with
    | [] => if ip.isEmpty then none else some (mkRat (digitsVal ip) 1)
    | '.' :: frac =>
      if frac.all (fun c => c.isDigit) && !(ip.isEmpty && frac.isEmpty) then
        some (mkRat (digitsVal ip * 10 ^ frac.length + digitsVal frac) (10 ^ frac.length))
      else none
    | _ => none
  match s.data with
  | '-' :: rest => (go rest).map (fun q => -q)
  | '+' :: rest => go rest
  | cs => go cs

/-- A pandas column: object (string) dtype or numeric dtype.  `none` cells
are `NaN`. -/
inductive Column where
  | strCol (cells : List (Option String)) : Column
  | numCol (cells : List (Option ℚ)) : Column
deriving DecidableEq

/-- A DataFrame: named columns in order. -/
structure Table where
  cols : List (String × Column)
deriving DecidableEq

/-- Column lookup, `df[name]`; a missing column is a `KeyError`. -/
def getCol (t : Table) (n : String) : Except String Column :=
  match t.cols.find? (fun c => c.1 == n) with
  | some c => Except.ok c.2
  | none => Except.error ("KeyError: " ++ n)

/-- Column assignment `df[name] = col`: replaces an existing column of that
name, otherwise appends. -/
def addCol (t : Table) (n : String) (c : Column) : Table :=
  Table.mk ((t.cols.filter (fun p => p.1 != n)) ++ [(n, c)])

/-- The column names of a table. -/
def tableNames (t : Table) : List String := t.cols.map Prod.fst

/-- Number of cells in a column. -/
def colLen : Column → Nat
  | Column.strCol cs => cs.length
  | Column.numCol cs => cs.length

/-- Number of rows, read off the first column (all columns of a loaded or
merged table have the same length). -/
def Table.height (t : Table) : Nat :=
  match t.cols with
  | [] => 0
  | c :: _ => colLen c.2

/-- A CSV file as delivered by the external loader: named columns of raw
optional strings (empty fields are `none`). -/
structure RawCsv where
  cols : List (String × List (Option String))
deriving DecidableEq

/-- Whether a raw cell is compatible with a numeric dtype: null, or a
string that parses as a plain number. -/
def numLike (c : Option String) : Bool :=
  match c with
  | none => true
  | some s => (parseFloat s).isSome

/-- `read_csv` dtype inference for one column: numeric exactly when every
non-null cell parses as a plain number, otherwise object (string) dtype. -/
def inferColumn (cells : List (Option String)) : Column :=
  if cells.all numLike then
    Column.numCol (cells.map (fun c => c.bind parseFloat))
  else Column.strCol cells

/-- `pd.read_csv`: loads each column with dtype inference. -/
def readCsv (f : RawCsv) : Table :=
  Table.mk (f.cols.map (fun p => (p.1, inferColumn p.2)))

/-- The column names of a raw CSV. -/
def csvNames (f : RawCsv) : List String := f.cols.map Prod.fst

/-- A merge-key value: a string or a number, or `none` for `NaN`. -/
abbrev KeyV := Option (String ⊕ ℚ)

/-- The key values of a column. -/
def colKeys : Column → List KeyV
  | Column.strCol cs => cs.map (fun c => c.map Sum.inl)
  | Column.numCol cs => cs.map (fun c => c.map Sum.inr)

/-- Whether a column has numeric dtype. -/
def isNumericCol : Column → Bool
  | Column.strCol _ => false
  | Column.numCol _ => true

/-- How many rows of `rkeys` carry the key `k`. -/
def keyCount (rkeys : List KeyV) (k : KeyV) : Nat :=
  (rkeys.filter (fun r => decide (r = k))).length

/-- Indices (counting from `i`) of the rows of the list whose key is `k`. -/
def idxsFrom (i : Nat) (k : KeyV) : List KeyV → List Nat
  | [] => []
  | r :: rs => if r = k then i :: idxsFrom (i + 1) k rs else idxsFrom (i + 1) k rs

/-- Indices of the right-table rows matching key `k`, in input order. -/
def matchIdxs (rkeys : List KeyV) (k : KeyV) : List Nat := idxsFrom 0 k rkeys

/-- Row-index pairs of a left merge, left rows counted from `i`: each left
row yields one pair per matching right row, or a single `(i, none)` pair
when nothing matches. -/
def pairsFrom (rkeys : List KeyV) (i : Nat) : List KeyV → List (Nat × Option Nat)
  | [] => []
  | k :: ks =>
    (match matchIdxs rkeys k with
     | [] => [(i, none)]
     | ms => ms.map (fun j => (i, some j))) ++ pairsFrom rkeys (i + 1) ks

/-- All row-index pairs of a left merge. -/
def mergePairs (lkeys rkeys : List KeyV) : List (Nat × Option Nat) :=
  pairsFrom rkeys 0 lkeys

/-- Rebuild a cell list along a row-index list; `none` indices become `NaN`
cells. -/
def reindexCells (cs : List (Option α)) (idx : List (Option Nat)) : List (Option α) :=
  idx.map (fun oi => match oi with | none => none | some i => cs.getD i none)

/-- Rebuild a column along a row-index list (dtype is preserved; pandas
keeps a numeric column numeric when the merge introduces `NaN`). -/
def reindexCol (c : Column) (idx : List (Option Nat)) : Column :=
  match c with
  | Column.strCol cs => Column.strCol (reindexCells cs idx)
  | Column.numCol cs => Column.numCol (reindexCells cs idx)

/-- `left.merge(right, left_on=lk, right_on=rk, how='left')`: key columns
are looked up (`KeyError` when absent), must agree in dtype (pandas raises
on incompatible key dtypes), and the output carries all columns of both
tables reindexed along the match pairs. -/
def leftMergeTables (left : Table) (lk : String) (right : Table) (rk : String) :
    Except String Table :=
  match getCol left lk with
  | Except.error e => Except.error e
  | Except.ok lc =>
    match getCol right rk with
    | Except.error e => Except.error e
    | Except.ok rc =>
      if isNumericCol lc != isNumericCol rc then
        Except.error "merge keys have incompatible dtypes"
      else
        let pairs := mergePairs (colKeys lc) (colKeys rc)
        let li := pairs.map (fun p => some p.1)
        let ri := pairs.map Prod.snd
        Except.ok (Table.mk
          (left.cols.map (fun p => (p.1, reindexCol p.2 li)) ++
           right.cols.map (fun p => (p.1, reindexCol p.2 ri))))

/-- Effectful map over a list: the first `Except.error` aborts, mirroring a
raised exception inside a pandas whole-column operation. -/
def exMapM (f : α → Except String β) : List α → Except String (List β)
  | [] => Except.ok []
  | x :: xs =>
    match f x with
    | Except.error e => Except.error e
    | Except.ok b =>
      match exMapM f xs with
      | Except.error e => Except.error e
      | Except.ok bs => Except.ok (b :: bs)

/-- `astype(float)` on one cell: `NaN` passes through, a string must parse
or the whole conversion raises `ValueError`. -/
def parseCell (c : Option String) : Except String (Option ℚ) :=
  match c with
  | none => Except.ok none
  | some s =>
    match parseFloat s with
    | some q => Except.ok (some q)
    | none => Except.error ("ValueError: could not convert string to float: " ++ s)

/-- `astype(float)` on a column: the identity on a numeric column, cellwise
parsing (first failure raises) on a string column. -/
def astypeFloat : Column → Except String (List (Option ℚ))
  | Column.numCol cs => Except.ok cs
  | Column.strCol cs => exMapM parseCell cs

/-- The `.str` accessor: raises `AttributeError` on a numeric column. -/
def strAccessor : Column → Except String (List (Option String))
  | Column.strCol cs => Except.ok cs
  | Column.numCol _ => Except.error "AttributeError: can only use .str accessor with string values"

/-- `.str.replace(ch, '')` on one cell, all occurrences (pandas default
`n = -1`; for `','` the source passes `regex=True`, same effect for a
single literal character). -/
def removeAll (ch : Char) (s : String) : String :=
  String.mk (s.data.filter (fun c => c != ch))

/-- `fillna(0)`. -/
def fillna0 (cs : List (Option ℚ)) : List ℚ := cs.map (fun c => c.getD 0)

/-- One derivation line of the shape
`gdf[src].str.replace(ch, '').astype(float).fillna(0)`
(lines 44 and 49 of `app.py`). -/
def deriveStrippedCol (gdf : Table) (n : String) (ch : Char) : Except String (List ℚ) :=
  match getCol gdf n with
  | Except.error e => Except.error e
  | Except.ok c =>
    match strAccessor c with
    | Except.error e => Except.error e
    | Except.ok cells =>
      match exMapM parseCell (cells.map (fun oc => oc.map (removeAll ch))) with
      | Except.error e => Except.error e
      | Except.ok parsed => Except.ok (fillna0 parsed)

/-- One derivation line of the shape `gdf[src].astype(float).fillna(0)`
(lines 45 and 46 of `app.py`). -/
def deriveNumCol (gdf : Table) (n : String) : Except String (List ℚ) :=
  match getCol gdf n with
  | Except.error e => Except.error e
  | Except.ok c =>
    match astypeFloat c with
    | Except.error e => Except.error e
    | Except.ok parsed => Except.ok (fillna0 parsed)

/-- The Urban Planning rule table (lines 52-63): descending strict `>`
thresholds, first match wins.  `mkRat 541 10` is the literal `54.1`, and so
on. -/
def urbanRules : List (ℚ × String) :=
  [(60, "Focus on sustainable urbanization in high urban density areas"),
   (mkRat 541 10, "Enhance infrastructure resilience and promote mixed-use development"),
   (mkRat 482 10, "Encourage eco-friendly transportation and smart city initiatives"),
   (mkRat 423 10, "Strengthen public transport systems and pedestrian-friendly spaces"),
   (mkRat 364 10, "Promote green building practices and energy-efficient policies"),
   (mkRat 305 10, "Support community-driven urban projects and housing affordability"),
   (mkRat 246 10, "Develop sustainable industrial zones and manage urban sprawl"),
   (mkRat 187 10, "Improve basic infrastructure and access to essential services"),
   (11, "Encourage planned urban growth and reduce informal settlements")]

/-- The final `else` of the Urban Planning classifier. -/
def urbanDefault : String := "Promote urban development in underdeveloped areas"

/-- The Infrastructure Development rule table (lines 65-73). -/
def infraRules : List (ℚ × String) :=
  [(10000, "Expand infrastructure projects significantly in states with highly extensive agricultural land"),
   (8000, "Encourage large-scale infrastructure expansion to support agriculture and rural growth"),
   (6000, "Promote balanced infrastructure development to complement agricultural production"),
   (4000, "Focus on enhancing infrastructure to support medium-scale agricultural activities"),
   (2000, "Optimize infrastructure for better utilization in moderately agricultural areas")]

/-- The final `else` of the Infrastructure Development classifier. -/
def infraDefault : String :=
  "Prioritize infrastructure development in regions with limited agricultural land"

/-- The Environmental Conservation rule table (lines 74-88). -/
def conservationRules : List (ℚ × String) :=
  [(5000, "Implement extensive reforestation and conservation programs to preserve ecosystems"),
   (4500, "Focus on large-scale afforestation and forest preservation projects"),
   (4000, "Strengthen community-driven conservation efforts and reforestation plans"),
   (3500, "Enhance forest management practices and sustainable land use strategies"),
   (3000, "Increase funding for conservation programs and biodiversity initiatives"),
   (2500, "Promote sustainable forestry and eco-friendly policies in high-impact areas"),
   (2000, "Support moderate-scale afforestation projects and community participation"),
   (1500, "Focus on targeted afforestation efforts in underutilized regions"),
   (1000, "Encourage community involvement and local conservation initiatives"),
   (500, "Promote small-scale afforestation and awareness programs")]

/-- The final `else` of the Environmental Conservation classifier. -/
def conservationDefault : String :=
  "Initiate basic conservation and afforestation efforts in critical regions"

/-- The Socio-Economics Analysis rule table (lines 89-105): ascending `<=`
thresholds. -/
def socioRules : List (ℚ × String) :=
  [(60, "Focus on rural development and connectivity in sparsely populated areas"),
   (120, "Support sparsely populated regions with roadways and basic facilities"),
   (180, "Enhance rural infrastructure and agricultural support"),
   (240, "Improve access to education and healthcare in moderately populated areas"),
   (300, "Invest in medium-density regions with industrial hubs"),
   (360, "Promote urbanization in emerging towns and cities"),
   (420, "Develop infrastructure and job opportunities in densely populated regions"),
   (480, "Implement smart city projects for high-density urban areas"),
   (540, "Enhance public transportation and housing in urban centers"),
   (600, "Expand utilities and green spaces in highly urbanized areas"),
   (660, "Focus on reducing congestion and pollution in urban hotspots"),
   (720, "Prioritize high-density urban centers with smart city initiatives"),
   (780, "Develop advanced infrastructure for mega-cities and metropolitan regions")]

/-- The final `else` of the Socio-Economics Analysis classifier. -/
def socioDefault : String :=
  "Address overpopulation challenges with sustainable city planning"

/-- Ordered evaluation of a descending rule table: the label of the first
rule with `x > threshold`, else the default. -/
def classifyDesc (rules : List (ℚ × String)) (dflt : String) (x : ℚ) : String :=
  match rules with
  | [] => dflt
  | r :: rest => if x > r.1 then r.2 else classifyDesc rest dflt x

/-- Ordered evaluation of an ascending rule table: the label of the first
rule with `x ≤ threshold`, else the default. -/
def classifyAsc (rules : List (ℚ × String)) (dflt : String) (x : ℚ) : String :=
  match rules with
  | [] => dflt
  | r :: rest => if x ≤ r.1 then r.2 else classifyAsc rest dflt x

/-- The Urban Planning recommendation of one indicator value. -/
def urbanRec (x : ℚ) : String := classifyDesc urbanRules urbanDefault x

/-- The Infrastructure Development recommendation of one indicator value. -/
def infraRec (x : ℚ) : String := classifyDesc infraRules infraDefault x

/-- The Environmental Conservation recommendation of one indicator value. -/
def conservationRec (x : ℚ) : String := classifyDesc conservationRules conservationDefault x

/-- The Socio-Economics Analysis recommendation of one indicator value. -/
def socioRec (x : ℚ) : String := classifyAsc socioRules socioDefault x

/-- Lines 43-105 of `process_files`: derive the four indicator columns and
attach them and their recommendation columns.  The source interleaves the
column assignments with the derivations; no derivation reads a column an
earlier assignment writes, so deriving the four lists first and appending
the eight columns in source order produces the same table and the same
first error. -/
def deriveIndicators (gdf : Table) : Except String Table :=
  match deriveStrippedCol gdf "Urban pop. In %" '%' with
  | Except.error e => Except.error e
  | Except.ok u =>
    match deriveNumCol gdf "Net area sown" with
    | Except.error e => Except.error e
    | Except.ok v =>
      match deriveNumCol gdf "Forests" with
      | Except.error e => Except.error e
      | Except.ok w =>
        match deriveStrippedCol gdf "Density" ',' with
        | Except.error e => Except.error e
        | Except.ok d =>
          let t1 := addCol gdf "Urban Planning" (Column.numCol (u.map some))
          let t2 := addCol t1 "Infrastructure Development" (Column.numCol (v.map some))
          let t3 := addCol t2 "Environmental Conservation" (Column.numCol (w.map some))
          let t4 := addCol t3 "Socio-Economics Analysis" (Column.numCol (d.map some))
          let t5 := addCol t4 "Urban Planning Recommendation"
            (Column.strCol (u.map (fun x => some (urbanRec x))))
          let t6 := addCol t5 "Infrastructure Development Recommendation"
            (Column.strCol (v.map (fun x => some (infraRec x))))
          let t7 := addCol t6 "Environmental Conservation Recommendation"
            (Column.strCol (w.map (fun x => some (conservationRec x))))
          let t8 := addCol t7 "Socio-Economics Analysis Recommendation"
            (Column.strCol (d.map (fun x => some (socioRec x))))
          Except.ok t8

/-- The population CSV join-key column name, with the encoding artifact of
the source file reproduced byte for byte. -/
def popKeyName : String := "State orÃ¿Union Territory"

/-- `process_files` (lines 34-107): load the two CSVs (`population_data`,
`land_data`), left-merge both onto the boundary table on `statename`, then
derive indicators and recommendations. -/
def process_files (gdfT : Table) (populationCsv landCsv : RawCsv) : Except String Table :=
  match leftMergeTables gdfT "statename" (readCsv populationCsv) popKeyName with
  | Except.error e => Except.error e
  | Except.ok g1 =>
    match leftMergeTables g1 "statename" (readCsv landCsv) "States/UTs" with
    | Except.error e => Except.error e
    | Except.ok g2 => deriveIndicators g2

/-- The folium tooltip specification of `create_map`. -/
structure TooltipSpec where
  fields : List String
  aliases : List String
  localize : Bool
deriving DecidableEq

/-- A folium per-feature style dictionary. -/
structure MapStyle where
  fillColor : String
  fillOpacity : ℚ
  weight : ℚ
deriving DecidableEq

/-- The overlay `create_map` hands to folium: the joined table, the layer
name, the tooltip specification and the per-feature style function. -/
structure MapOverlay where
  data : Table
  name : String
  tooltip : TooltipSpec
  style_function : Nat → MapStyle

/-- `create_map` (lines 109-125): builds the overlay and the output file
name `title.replace(' ', '_') + "_Interactive_Map.html"`.  `mkRat 6 10` and
`mkRat 5 10` are the literals `0.6` and `0.5`. -/
def create_map (gdf : Table) (title : String) (recommendation_column : String) :
    MapOverlay × String :=
  (MapOverlay.mk gdf title
    (TooltipSpec.mk ["statename", recommendation_column] ["State:", "Recommendation:"] true)
    (fun _ => MapStyle.mk "blue" (mkRat 6 10) (mkRat 5 10)),
   (String.map (fun c => if c = ' ' then '_' else c) title) ++ "_Interactive_Map.html")

/-- The boolean predicates of a descending rule table in evaluation order,
with the final `else` as a catch-all last predicate. -/
def descPreds (rules : List (ℚ × String)) : List (ℚ → Bool) :=
  rules.map (fun r x => decide (x > r.1)) ++ [fun _ => true]

/-- The boolean predicates of an ascending rule table in evaluation order,
with the final `else` as a catch-all last predicate. -/
def ascPreds (rules : List (ℚ × String)) : List (ℚ → Bool) :=
  rules.map (fun r x => decide (x ≤ r.1)) ++ [fun _ => true]

/-- The labels of a rule table in evaluation order, the default last. -/
def ruleLabels (rules : List (ℚ × String)) (dflt : String) : List String :=
  rules.map Prod.snd ++ [dflt]

/-- Index of the first predicate satisfied by `x` (length of the list if
none is). -/
def firstIdx (ps : List (ℚ → Bool)) (x : ℚ) : Nat :=
  match ps with
  | [] => 0
  | p :: rest => if p x then 0 else firstIdx rest x + 1

/-- `i` is the index of a matching rule no earlier rule precedes: the rule
`x` lands on under in-order evaluation with return on first match. -/
def isFirstMatch (ps : List (ℚ → Bool)) (x : ℚ) (i : Nat) : Prop :=
  ∃ h : i < ps.length,
    ps.get ⟨i, h⟩ x = true ∧ ∀ j (hj : j < i), ps.get ⟨j, Nat.lt_trans hj h⟩ x = false

/-- Whether an `Except` computation succeeded. -/
def exOk : Except ε α → Bool
  | Except.ok _ => true
  | Except.error _ => false

/-- In-order first-match totality of a descending rule table: every value
lands on exactly one effective band, and `classifyDesc` returns that
band's label. -/
def rulesTotalDesc (rules : List (ℚ × String)) (dflt : String) : Prop :=
  ∀ x : ℚ,
    (∃! i : Nat, isFirstMatch (descPreds rules) x i) ∧
    isFirstMatch (descPreds rules) x (firstIdx (descPreds rules) x) ∧
    classifyDesc rules dflt x =
      (ruleLabels rules dflt).getD (firstIdx (descPreds rules) x) dflt

/-- In-order first-match totality of an ascending rule table. -/
def rulesTotalAsc (rules : List (ℚ × String)) (dflt : String) : Prop :=
  ∀ x : ℚ,
    (∃! i : Nat, isFirstMatch (ascPreds rules) x i) ∧
    isFirstMatch (ascPreds rules) x (firstIdx (ascPreds rules) x) ∧
    classifyAsc rules dflt x =
      (ruleLabels rules dflt).getD (firstIdx (ascPreds rules) x) dflt

/-- A named column of the table `process_files` returns, for stating
end-to-end facts: the first pipeline error, else the looked-up column. -/
def resultCol (g : Table) (p l : RawCsv) (n : String) : Except String Column :=
  match process_files g p l with
  | Except.error e => Except.error e
  | Except.ok t => getCol t n

/-- Boundary table of the end-to-end scenario: one region named Alpha. -/
def alphaGdf : Table :=
  Table.mk [("statename", Column.strCol [some "Alpha"]),
            ("geometry", Column.strCol [some "POLYGON"])]

/-- Population CSV of the end-to-end scenario: urban percentage `"65%"`. -/
def alphaPop : RawCsv :=
  RawCsv.mk [(popKeyName, [some "Alpha"]),
             ("Urban pop. In %", [some "65%"])]

/-- Land CSV of the end-to-end scenario: net sown `"9000"`, forest
`"3200"`, density `"150,5"`. -/
def alphaLand : RawCsv :=
  RawCsv.mk [("States/UTs", [some "Alpha"]),
             ("Net area sown", [some "9000"]),
             ("Forests", [some "3200"]),
             ("Density", [some "150,5"])]

/-- A joined table whose urban-percentage field holds the non-numeric
string "abc" while every other source field is well formed. -/
def badUrbanGdf : Table :=
  Table.mk [("statename", Column.strCol [some "Alpha"]),
            ("Urban pop. In %", Column.strCol [some "abc"]),
            ("Net area sown", Column.numCol [some 9000]),
            ("Forests", Column.numCol [some 3200]),
            ("Density", Column.strCol [some "150"])]

/-- A boundary table with a single region named A. -/
def dupLeft : Table := Table.mk [("statename", Column.strCol [some "A"])]

/-- An attribute table with two rows for the key A. -/
def dupRight : Table :=
  Table.mk [("States/UTs", Column.strCol [some "A", some "A"]),
            ("Net area sown", Column.numCol [some 1, some 2])]

/-- What the left merge of `dupLeft` with `dupRight` produces: two rows
for the single input region. -/
def dupMerged : Table :=
  Table.mk [("statename", Column.strCol [some "A", some "A"]),
            ("States/UTs", Column.strCol [some "A", some "A"]),
            ("Net area sown", Column.numCol [some 1, some 2])]

/-- Two regions, of which only B has an attribute row. -/
def w2Left : Table := Table.mk [("statename", Column.strCol [some "A", some "B"])]

/-- An attribute table with one row, keyed B. -/
def w2Right : Table :=
  Table.mk [("States/UTs", Column.strCol [some "B"]),
            ("Forests", Column.numCol [some 7])]

/-- The merge of `w2Left` with `w2Right`: one row per region, null
attributes on the unmatched region A. -/
def w2Merged : Table :=
  Table.mk [("statename", Column.strCol [some "A", some "B"]),
            ("States/UTs", Column.strCol [none, some "B"]),
            ("Forests", Column.numCol [none, some 7])]

/-- Inputs whose urban-percentage CSV column holds only the plain number
`"65"`, so the loader infers a numeric dtype for it. -/
def numericPctGdf : Table := Table.mk [("statename", Column.strCol [some "Alpha"])]

/-- Population CSV whose urban-percentage column is entirely plain
numbers. -/
def numericPctPop : RawCsv :=
  RawCsv.mk [(popKeyName, [some "Alpha"]),
             ("Urban pop. In %", [some "65"])]

/-- Land CSV matching `numericPctPop`, with string-typed density. -/
def numericPctLand : RawCsv :=
  RawCsv.mk [("States/UTs", [some "Alpha"]),
             ("Net area sown", [some "9000"]),
             ("Forests", [some "3200"]),
             ("Density", [some "150,5"])]

theorem exOk_false_iff {α : Type _} (e : Except String α) :
    exOk e = false ↔ ∃ msg, e = Except.error msg := by
  cases e with
  | error msg => simp [exOk]
  | ok a => simp [exOk]

theorem exOk_true_iff {α : Type _} (e : Except String α) :
    exOk e = true ↔ ∃ a, e = Except.ok a := by
  cases e with
  | error msg => simp [exOk]
  | ok a => simp [exOk]

theorem exMapM_ok_spec {α β : Type _} {f : α → Except String β} :
    ∀ {l : List α} {r : List β}, exMapM f l = Except.ok r →
      r.length = l.length ∧
      ∀ i (hl : i < l.length) (hr : i < r.length),
        f l[i] = Except.ok r[i] := by
  intro l
  induction l with
  | nil =>
    intro r h
    simp only [exMapM] at h
    cases h
    exact ⟨rfl, fun i hl _ => absurd hl (Nat.not_lt_zero i)⟩
  | cons a as ih =>
    intro r h
    simp only [exMapM] at h
    cases hfa : f a with
    | error e => rw [hfa] at h; cases h
    | ok b =>
      rw [hfa] at h
      cases hrest : exMapM f as with
      | error e => rw [hrest] at h; cases h
      | ok bs =>
        rw [hrest] at h
        cases h
        obtain ⟨hlen, hget⟩ := ih hrest
        refine ⟨by simp [hlen], ?_⟩
        intro i hl hr
        cases i with
        | zero => exact hfa
        | succ j => exact hget j (Nat.lt_of_succ_lt_succ hl) (Nat.lt_of_succ_lt_succ hr)

theorem exMapM_error_of_mem {α β : Type _} {f : α → Except String β} {l : List α} {x : α}
    (hx : x ∈ l) (hfx : exOk (f x) = false) : exOk (exMapM f l) = false := by
  induction l with
  | nil => cases hx
  | cons a as ih =>
    simp only [exMapM]
    rcases List.mem_cons.mp hx with h | h
    · subst h
      obtain ⟨e, he⟩ := (exOk_false_iff _).mp hfx
      rw [he]
      rfl
    · cases hfa : f a with
      | error e => rfl
      | ok b =>
        have := ih h
        obtain ⟨e, he⟩ := (exOk_false_iff _).mp this
        rw [he]
        rfl

theorem getCol_mem {t : Table} {n : String} {c : Column}
    (h : getCol t n = Except.ok c) : n ∈ tableNames t := by
  unfold getCol at h
  cases hf : t.cols.find? (fun c => c.1 == n) with
  | none => rw [hf] at h; cases h
  | some p =>
    have hmem := List.mem_of_find?_eq_some hf
    have hbeq := List.find?_some hf
    have : p.1 = n := by simpa using hbeq
    exact this ▸ List.mem_map_of_mem Prod.fst hmem

theorem getCol_not_mem {t : Table} {n : String} (h : n ∉ tableNames t) :
    getCol t n = Except.error ("KeyError: " ++ n) := by
  unfold getCol
  have : t.cols.find? (fun c => c.1 == n) = none := by
    rw [List.find?_eq_none]
    intro p hp hbeq
    have hpn : p.1 = n := by simpa using hbeq
    exact h (hpn ▸ List.mem_map_of_mem Prod.fst hp)
  rw [this]

theorem readCsv_names (f : RawCsv) : tableNames (readCsv f) = csvNames f := by
  simp [tableNames, readCsv, csvNames, List.map_map, Function.comp]

theorem getCol_cols_ne_nil {t : Table} {n : String} {c : Column}
    (h : getCol t n = Except.ok c) : t.cols ≠ [] := by
  intro hnil
  unfold getCol at h
  rw [hnil] at h
  cases h

theorem leftMergeTables_ok_spec {left : Table} {lk : String} {right : Table} {rk : String}
    {t : Table} (h : leftMergeTables left lk right rk = Except.ok t) :
    ∃ lc rc, getCol left lk = Except.ok lc ∧ getCol right rk = Except.ok rc ∧
      (isNumericCol lc != isNumericCol rc) = false ∧
      t = Table.mk
        (left.cols.map (fun p =>
           (p.1, reindexCol p.2 ((mergePairs (colKeys lc) (colKeys rc)).map (fun q => some q.1)))) ++
         right.cols.map (fun p =>
           (p.1, reindexCol p.2 ((mergePairs (colKeys lc) (colKeys rc)).map Prod.snd)))) := by
  unfold leftMergeTables at h
  split at h
  · cases h
  · next lc hlc =>
    split at h
    · cases h
    · next rc hrc =>
      split at h
      · cases h
      · next hd =>
        cases h
        exact ⟨lc, rc, hlc, hrc, Bool.eq_false_iff.mpr hd, rfl⟩

theorem leftMergeTables_names {left : Table} {lk : String} {right : Table} {rk : String}
    {t : Table} (h : leftMergeTables left lk right rk = Except.ok t) :
    tableNames t = tableNames left ++ tableNames right := by
  obtain ⟨lc, rc, _, _, _, ht⟩ := leftMergeTables_ok_spec h
  subst ht
  simp only [tableNames, List.map_append, List.map_map]
  rfl

theorem colLen_reindex (c : Column) (idx : List (Option Nat)) :
    colLen (reindexCol c idx) = idx.length := by
  cases c with
  | strCol cs => simp [reindexCol, reindexCells, colLen]
  | numCol cs => simp [reindexCol, reindexCells, colLen]

theorem idxsFrom_length (k : KeyV) : ∀ (rs : List KeyV) (i : Nat),
    (idxsFrom i k rs).length = keyCount rs k := by
  intro rs
  induction rs with
  | nil => intro i; simp [idxsFrom, keyCount]
  | cons r rs ih =>
    intro i
    by_cases hr : r = k
    · simp [idxsFrom, hr, keyCount, List.filter_cons, ih]
    · simp [idxsFrom, hr, keyCount, List.filter_cons, ih, keyCount]

theorem pairsFrom_length (rkeys : List KeyV) : ∀ (ks : List KeyV) (i : Nat),
    (pairsFrom rkeys i ks).length = (ks.map (fun k => max (keyCount rkeys k) 1)).sum := by
  intro ks
  induction ks with
  | nil => intro i; simp [pairsFrom]
  | cons k ks ih =>
    intro i
    have hlen : (matchIdxs rkeys k).length = keyCount rkeys k := idxsFrom_length k rkeys 0
    cases hm : matchIdxs rkeys k with
    | nil =>
      have h0 : keyCount rkeys k = 0 := by rw [← hlen, hm]; rfl
      simp only [pairsFrom, hm, List.length_append, List.length_cons, List.length_nil,
        List.map_cons, List.sum_cons, ih, h0]
      omega
    | cons j js =>
      have h1 : 1 ≤ keyCount rkeys k := by
        rw [← hlen, hm]; exact Nat.succ_le_succ (Nat.zero_le _)
      have hmax : max (keyCount rkeys k) 1 = keyCount rkeys k := Nat.max_eq_left h1
      have h2 : js.length + 1 = keyCount rkeys k := by
        rw [← hlen, hm, List.length_cons]
      simp only [pairsFrom, hm, List.length_append, List.length_map, List.length_cons,
        List.map_cons, List.sum_cons, ih, hmax]
      omega

theorem leftMergeTables_height {left : Table} {lk : String} {right : Table} {rk : String}
    {t : Table} {lc rc : Column}
    (h : leftMergeTables left lk right rk = Except.ok t)
    (hlc : getCol left lk = Except.ok lc) (hrc : getCol right rk = Except.ok rc) :
    Table.height t = ((colKeys lc).map (fun k => max (keyCount (colKeys rc) k) 1)).sum := by
  obtain ⟨lc', rc', hlc', hrc', _, ht⟩ := leftMergeTables_ok_spec h
  rw [hlc] at hlc'
  rw [hrc] at hrc'
  cases hlc'
  cases hrc'
  subst ht
  have hnn := getCol_cols_ne_nil hlc
  cases hc : left.cols with
  | nil => exact absurd hc hnn
  | cons c cs =>
    simp only [Table.height, hc, List.map_cons, List.cons_append, colLen_reindex,
      List.length_map]
    rw [mergePairs, pairsFrom_length]

theorem deriveStrippedCol_err_getCol {gdf : Table} {n : String} {ch : Char} {e : String}
    (h : getCol gdf n = Except.error e) : exOk (deriveStrippedCol gdf n ch) = false := by
  unfold deriveStrippedCol
  rw [h]
  rfl

theorem deriveStrippedCol_err_numeric {gdf : Table} {n : String} {ch : Char}
    {cs : List (Option ℚ)} (h : getCol gdf n = Except.ok (Column.numCol cs)) :
    exOk (deriveStrippedCol gdf n ch) = false := by
  unfold deriveStrippedCol
  rw [h]
  rfl

theorem deriveStrippedCol_eq {gdf : Table} {n : String} {ch : Char}
    {cells : List (Option String)}
    (hcol : getCol gdf n = Except.ok (Column.strCol cells)) :
    deriveStrippedCol gdf n ch =
      match exMapM parseCell (cells.map (fun oc => oc.map (removeAll ch))) with
      | Except.error e => Except.error e
      | Except.ok parsed => Except.ok (fillna0 parsed) := by
  unfold deriveStrippedCol
  rw [hcol]
  rfl

theorem deriveStrippedCol_err_badcell {gdf : Table} {n : String} {ch : Char}
    {cells : List (Option String)}
    (hcol : getCol gdf n = Except.ok (Column.strCol cells))
    (hbad : ∃ s, some s ∈ cells ∧ parseFloat (removeAll ch s) = none) :
    exOk (deriveStrippedCol gdf n ch) = false := by
  obtain ⟨s, hs, hp⟩ := hbad
  have hmem : some (removeAll ch s) ∈ cells.map (fun oc => oc.map (removeAll ch)) := by
    simpa using List.mem_map_of_mem (fun oc => oc.map (removeAll ch)) hs
  have hcell : exOk (parseCell (some (removeAll ch s))) = false := by
    simp only [parseCell, hp]
    rfl
  have herr := exMapM_error_of_mem hmem hcell
  obtain ⟨e, he⟩ := (exOk_false_iff _).mp herr
  rw [deriveStrippedCol_eq hcol, he]
  rfl

theorem deriveNumCol_err_getCol {gdf : Table} {n : String} {e : String}
    (h : getCol gdf n = Except.error e) : exOk (deriveNumCol gdf n) = false := by
  unfold deriveNumCol
  rw [h]
  rfl

theorem deriveIndicators_err_urban {gdf : Table}
    (h : exOk (deriveStrippedCol gdf "Urban pop. In %" '%') = false) :
    exOk (deriveIndicators gdf) = false := by
  obtain ⟨e, he⟩ := (exOk_false_iff _).mp h
  unfold deriveIndicators
  rw [he]
  rfl

theorem deriveIndicators_err_sown {gdf : Table}
    (h : exOk (deriveNumCol gdf "Net area sown") = false) :
    exOk (deriveIndicators gdf) = false := by
  obtain ⟨e, he⟩ := (exOk_false_iff _).mp h
  unfold deriveIndicators
  split
  · rfl
  · rw [he]
    rfl

theorem deriveIndicators_err_forests {gdf : Table}
    (h : exOk (deriveNumCol gdf "Forests") = false) :
    exOk (deriveIndicators gdf) = false := by
  obtain ⟨e, he⟩ := (exOk_false_iff _).mp h
  unfold deriveIndicators
  split
  · rfl
  · split
    · rfl
    · rw [he]
      rfl

theorem deriveIndicators_err_density {gdf : Table}
    (h : exOk (deriveStrippedCol gdf "Density" ',') = false) :
    exOk (deriveIndicators gdf) = false := by
  obtain ⟨e, he⟩ := (exOk_false_iff _).mp h
  unfold deriveIndicators
  split
  · rfl
  · split
    · rfl
    · split
      · rfl
      · rw [he]
        rfl

theorem isFirstMatch_unique {ps : List (ℚ → Bool)} {x : ℚ} {i j : Nat}
    (hi : isFirstMatch ps x i) (hj : isFirstMatch ps x j) : i = j := by
  obtain ⟨hi1, hi2, hi3⟩ := hi
  obtain ⟨hj1, hj2, hj3⟩ := hj
  by_contra hne
  rcases Nat.lt_or_ge i j with h | h
  · exact Bool.noConfusion (hi2.symm.trans (hj3 i h))
  · rcases Nat.lt_or_ge j i with h2 | h2
    · exact Bool.noConfusion (hj2.symm.trans (hi3 j h2))
    · exact hne (Nat.le_antisymm h2 h)

theorem firstIdx_isFirstMatch {ps : List (ℚ → Bool)} {x : ℚ}
    (h : ∃ p ∈ ps, p x = true) : isFirstMatch ps x (firstIdx ps x) := by
  induction ps with
  | nil =>
    obtain ⟨p, hp, _⟩ := h
    cases hp
  | cons p rest ih =>
    by_cases hp : p x = true
    · have hfi : firstIdx (p :: rest) x = 0 := by simp [firstIdx, hp]
      rw [hfi]
      exact ⟨Nat.succ_pos _, hp, fun j hj => absurd hj (Nat.not_lt_zero j)⟩
    · have hpf : p x = false := Bool.eq_false_iff.mpr hp
      have hrest : ∃ q ∈ rest, q x = true := by
        obtain ⟨q, hq, hqx⟩ := h
        rcases List.mem_cons.mp hq with rfl | hq2
        · exact absurd hqx hp
        · exact ⟨q, hq2, hqx⟩
      obtain ⟨h1, h2, h3⟩ := ih hrest
      have hfi : firstIdx (p :: rest) x = firstIdx rest x + 1 := by simp [firstIdx, hpf]
      rw [hfi]
      refine ⟨Nat.succ_lt_succ h1, h2, ?_⟩
      intro j hj
      cases j with
      | zero => exact hpf
      | succ k => exact h3 k (Nat.lt_of_succ_lt_succ hj)

theorem descPreds_exists (rules : List (ℚ × String)) (x : ℚ) :
    ∃ p ∈ descPreds rules, p x = true := by
  refine ⟨fun _ => true, ?_, rfl⟩
  unfold descPreds
  exact List.mem_append_right _ (List.mem_singleton_self _)

theorem ascPreds_exists (rules : List (ℚ × String)) (x : ℚ) :
    ∃ p ∈ ascPreds rules, p x = true := by
  refine ⟨fun _ => true, ?_, rfl⟩
  unfold ascPreds
  exact List.mem_append_right _ (List.mem_singleton_self _)

theorem classifyDesc_eq_label (rules : List (ℚ × String)) (dflt : String) (x : ℚ) :
    classifyDesc rules dflt x =
      (ruleLabels rules dflt).getD (firstIdx (descPreds rules) x) dflt := by
  induction rules with
  | nil => simp [classifyDesc, ruleLabels, descPreds, firstIdx]
  | cons r rest ih =>
    by_cases hx : x > r.1
    · simp [classifyDesc, hx, descPreds, firstIdx, ruleLabels]
    · simp [classifyDesc, hx, descPreds, firstIdx, ruleLabels, ih]

theorem classifyAsc_eq_label (rules : List (ℚ × String)) (dflt : String) (x : ℚ) :
    classifyAsc rules dflt x =
      (ruleLabels rules dflt).getD (firstIdx (ascPreds rules) x) dflt := by
  induction rules with
  | nil => simp [classifyAsc, ruleLabels, ascPreds, firstIdx]
  | cons r rest ih =>
    by_cases hx : x ≤ r.1
    · simp [classifyAsc, hx, ascPreds, firstIdx, ruleLabels]
    · simp [classifyAsc, hx, ascPreds, firstIdx, ruleLabels, ih]

theorem rulesTotalDesc_all (rules : List (ℚ × String)) (dflt : String) :
    rulesTotalDesc rules dflt := by
  intro x
  have hfm := firstIdx_isFirstMatch (descPreds_exists rules x)
  exact ⟨⟨firstIdx (descPreds rules) x, hfm, fun y hy => isFirstMatch_unique hy hfm⟩,
    hfm, classifyDesc_eq_label rules dflt x⟩

theorem rulesTotalAsc_all (rules : List (ℚ × String)) (dflt : String) :
    rulesTotalAsc rules dflt := by
  intro x
  have hfm := firstIdx_isFirstMatch (ascPreds_exists rules x)
  exact ⟨⟨firstIdx (ascPreds rules) x, hfm, fun y hy => isFirstMatch_unique hy hfm⟩,
    hfm, classifyAsc_eq_label rules dflt x⟩

/-- Claim C1, counterexample: the urban-percentage value "abc" fails to
parse after stripping the percent sign, and the indicator derivation then
raises the error to the caller instead of substituting 0.0 and completing
(every other field of `badUrbanGdf` is well formed). -/
theorem parse_failure_c1_counterexample :
    parseFloat (removeAll '%' "abc") = none ∧
    exOk (deriveIndicators badUrbanGdf) = false := by decide

/-- Claim C1 (amended): when a source string of the urban-percentage or
density field fails to parse as a number after its normalization, the
indicator derivation raises the error to the caller, aborting the
invocation for all rows; the default 0.0 is substituted only for missing
(null) values, not for unparseable strings. -/
theorem parse_failure_raises_c1 :
    (∀ (gdf : Table) (cells : List (Option String)),
        getCol gdf "Urban pop. In %" = Except.ok (Column.strCol cells) →
        (∃ s, some s ∈ cells ∧ parseFloat (removeAll '%' s) = none) →
        exOk (deriveIndicators gdf) = false) ∧
    (∀ (gdf : Table) (cells : List (Option String)),
        getCol gdf "Density" = Except.ok (Column.strCol cells) →
        (∃ s, some s ∈ cells ∧ parseFloat (removeAll ',' s) = none) →
        exOk (deriveIndicators gdf) = false) := by
  constructor
  · intro gdf cells hcol hbad
    exact deriveIndicators_err_urban (deriveStrippedCol_err_badcell hcol hbad)
  · intro gdf cells hcol hbad
    exact deriveIndicators_err_density (deriveStrippedCol_err_badcell hcol hbad)

/-- Witness for `parse_failure_raises_c1` at concrete inputs. -/
theorem parse_failure_raises_c1_witness :
    exOk (deriveIndicators badUrbanGdf) = false ∧
    exOk (deriveIndicators (Table.mk [("Density", Column.strCol [some "x"])])) = false :=
  ⟨parse_failure_raises_c1.1 badUrbanGdf [some "abc"] (by decide)
      ⟨"abc", by decide, by decide⟩,
   parse_failure_raises_c1.2 (Table.mk [("Density", Column.strCol [some "x"])]) [some "x"]
      (by decide) ⟨"x", by decide, by decide⟩⟩

/-- Claim C2, counterexample: a single input region whose key matches two
attribute rows produces two output rows — the join neither keeps the
output length at the input region count nor picks only the first matching
row. -/
theorem join_first_match_c2_counterexample :
    Table.height dupLeft = 1 ∧
    leftMergeTables dupLeft "statename" dupRight "States/UTs" = Except.ok dupMerged ∧
    Table.height dupMerged = 2 := by decide

/-- Claim C2 (amended): the left join emits, for every input region, one
output row per matching attribute row and a single null-attribute row when
nothing matches, so the output length is the sum over regions of
`max matches 1`; it equals the input region count whenever every region
key matches at most one attribute row (zero matches included).  Duplicated
keys multiply rows instead of a first-match-wins choice. -/
theorem join_totality_c2 :
    ∀ (left : Table) (lk : String) (right : Table) (rk : String) (t : Table) (lc rc : Column),
      leftMergeTables left lk right rk = Except.ok t →
      getCol left lk = Except.ok lc → getCol right rk = Except.ok rc →
      Table.height t = ((colKeys lc).map (fun k => max (keyCount (colKeys rc) k) 1)).sum ∧
      ((∀ k ∈ colKeys lc, keyCount (colKeys rc) k ≤ 1) →
        Table.height t = (colKeys lc).length) := by
  intro left lk right rk t lc rc hm hlc hrc
  have hh := leftMergeTables_height hm hlc hrc
  refine ⟨hh, fun hle => ?_⟩
  rw [hh]
  have hsum : ∀ ks : List KeyV, (∀ k ∈ ks, keyCount (colKeys rc) k ≤ 1) →
      (ks.map (fun k => max (keyCount (colKeys rc) k) 1)).sum = ks.length := by
    intro ks
    induction ks with
    | nil => intro _; rfl
    | cons k ks ih =>
      intro hk
      have h1 : max (keyCount (colKeys rc) k) 1 = 1 :=
        Nat.max_eq_right (hk k (List.mem_cons_self k ks))
      simp only [List.map_cons, List.sum_cons, List.length_cons, h1,
        ih (fun k2 hk2 => hk k2 (List.mem_cons_of_mem _ hk2))]
      omega
  exact hsum _ hle

/-- Witness for `join_totality_c2` at a concrete duplicate-free input. -/
theorem join_totality_c2_witness :
    Table.height w2Merged =
      ((colKeys (Column.strCol [some "A", some "B"])).map
        (fun k => max (keyCount (colKeys (Column.strCol [some "B"])) k) 1)).sum ∧
    Table.height w2Merged = (colKeys (Column.strCol [some "A", some "B"])).length := by
  have h := join_totality_c2 w2Left "statename" w2Right "States/UTs" w2Merged
    (Column.strCol [some "A", some "B"]) (Column.strCol [some "B"])
    (by decide) (by decide) (by decide)
  refine ⟨h.1, h.2 ?_⟩
  intro k hk
  have hle := List.length_filter_le (fun r => decide (r = k)) (colKeys (Column.strCol [some "B"]))
  simpa [keyCount, colKeys] using hle

/-- Claim C3, counterexample: in the Alpha scenario the density "150,5" is
not malformed after comma stripping — it parses to 1505, so the derived
SocioEconomicDensity is 1505, not 0, and its recommendation is not the
first ascending band. -/
theorem alpha_scenario_c3_counterexample :
    resultCol alphaGdf alphaPop alphaLand "Socio-Economics Analysis" =
      Except.ok (Column.numCol [some 1505]) ∧
    resultCol alphaGdf alphaPop alphaLand "Socio-Economics Analysis" ≠
      Except.ok (Column.numCol [some 0]) ∧
    resultCol alphaGdf alphaPop alphaLand "Socio-Economics Analysis Recommendation" ≠
      Except.ok (Column.strCol
        [some "Focus on rural development and connectivity in sparsely populated areas"]) := by
  decide

/-- Claim C3 (amended): the Alpha scenario yields UrbanPlanningIndex 65
with the highest urbanization band, InfrastructureIndex 9000 with the
greater-than-8000 band, ConservationIndex 3200 with the greater-than-3000
band, and SocioEconomicDensity 1505 — the comma-stripped "150,5" parses as
1505 — with the final over-780 band. -/
theorem alpha_scenario_c3 :
    resultCol alphaGdf alphaPop alphaLand "Urban Planning" =
      Except.ok (Column.numCol [some 65]) ∧
    resultCol alphaGdf alphaPop alphaLand "Urban Planning Recommendation" =
      Except.ok (Column.strCol
        [some "Focus on sustainable urbanization in high urban density areas"]) ∧
    resultCol alphaGdf alphaPop alphaLand "Infrastructure Development" =
      Except.ok (Column.numCol [some 9000]) ∧
    resultCol alphaGdf alphaPop alphaLand "Infrastructure Development Recommendation" =
      Except.ok (Column.strCol
        [some "Encourage large-scale infrastructure expansion to support agriculture and rural growth"]) ∧
    resultCol alphaGdf alphaPop alphaLand "Environmental Conservation" =
      Except.ok (Column.numCol [some 3200]) ∧
    resultCol alphaGdf alphaPop alphaLand "Environmental Conservation Recommendation" =
      Except.ok (Column.strCol
        [some "Increase funding for conservation programs and biodiversity initiatives"]) ∧
    resultCol alphaGdf alphaPop alphaLand "Socio-Economics Analysis" =
      Except.ok (Column.numCol [some 1505]) ∧
    resultCol alphaGdf alphaPop alphaLand "Socio-Economics Analysis Recommendation" =
      Except.ok (Column.strCol
        [some "Address overpopulation challenges with sustainable city planning"]) := by
  decide

/-- Claim C4 (confirmed): the UrbanPlanningIndex 60 gets the second band's
label (strict greater-than-60 fails) while 60.0001 (`mkRat 600001 10000`)
gets the first; the SocioEconomicDensity 60 gets the first ascending band
while 60.0001 gets the second. -/
theorem boundary_bands_c4 :
    urbanRec 60 = "Enhance infrastructure resilience and promote mixed-use development" ∧
    urbanRec 60 ≠ "Focus on sustainable urbanization in high urban density areas" ∧
    urbanRec (mkRat 600001 10000) =
      "Focus on sustainable urbanization in high urban density areas" ∧
    socioRec 60 = "Focus on rural development and connectivity in sparsely populated areas" ∧
    socioRec (mkRat 600001 10000) =
      "Support sparsely populated regions with roadways and basic facilities" := by
  decide

/-- Claim C5 (confirmed): for each of the four rule tables, every rational
value matches exactly one rule under in-order evaluation with return on
first match (the final else is the catch-all), and the classifier returns
exactly that rule's label. -/
theorem classification_totality_c5 :
    rulesTotalDesc urbanRules urbanDefault ∧
    rulesTotalDesc infraRules infraDefault ∧
    rulesTotalDesc conservationRules conservationDefault ∧
    rulesTotalAsc socioRules socioDefault :=
  ⟨rulesTotalDesc_all _ _, rulesTotalDesc_all _ _, rulesTotalDesc_all _ _,
   rulesTotalAsc_all _ _⟩

/-- Claim C6, counterexample: an empty density string does not yield 0.0 —
the conversion raises instead. -/
theorem normalization_c6_counterexample :
    parseFloat (removeAll ',' "") = none ∧
    exOk (deriveStrippedCol (Table.mk [("Density", Column.strCol [some ""])])
        "Density" ',') = false := by decide

/-- Claim C6 (amended): "45.2%" normalizes to 45.2 (`mkRat 452 10`) and
"1,234,567" to 1234567; a null (missing) value yields 0.0; but an empty or
non-numeric string raises an error instead of yielding 0.0. -/
theorem normalization_c6 :
    deriveStrippedCol (Table.mk [("Urban pop. In %", Column.strCol [some "45.2%"])])
        "Urban pop. In %" '%' = Except.ok [mkRat 452 10] ∧
    deriveStrippedCol (Table.mk [("Density", Column.strCol [some "1,234,567"])])
        "Density" ',' = Except.ok [1234567] ∧
    deriveStrippedCol (Table.mk [("Density", Column.strCol [none])]) "Density" ',' =
      Except.ok [0] ∧
    exOk (deriveStrippedCol (Table.mk [("Density", Column.strCol [some ""])])
        "Density" ',') = false ∧
    exOk (deriveStrippedCol (Table.mk [("Urban pop. In %", Column.strCol [some "abc"])])
        "Urban pop. In %" '%') = false := by decide

/-- Claim C7 (confirmed): a required source column absent from every input
table makes the whole invocation fail with an error instead of
substituting 0.0 for every region. -/
theorem missing_column_fatal_c7 :
    ∀ (g : Table) (p l : RawCsv) (n : String),
      (n = "Urban pop. In %" ∨ n = "Net area sown" ∨ n = "Forests" ∨ n = "Density") →
      n ∉ tableNames g → n ∉ csvNames p → n ∉ csvNames l →
      exOk (process_files g p l) = false := by
  intro g p l n hn hg hp hl
  unfold process_files
  split
  · rfl
  · next g1 hg1 =>
    split
    · rfl
    · next g2 hg2 =>
      have hn1 : tableNames g1 = tableNames g ++ csvNames p := by
        rw [leftMergeTables_names hg1, readCsv_names]
      have hn2 : tableNames g2 = (tableNames g ++ csvNames p) ++ csvNames l := by
        rw [leftMergeTables_names hg2, hn1, readCsv_names]
      have hnot : n ∉ tableNames g2 := by
        rw [hn2]
        simp [hg, hp, hl]
      have hkey := getCol_not_mem hnot
      rcases hn with h | h | h | h
      · subst h
        exact deriveIndicators_err_urban (deriveStrippedCol_err_getCol hkey)
      · subst h
        exact deriveIndicators_err_sown (deriveNumCol_err_getCol hkey)
      · subst h
        exact deriveIndicators_err_forests (deriveNumCol_err_getCol hkey)
      · subst h
        exact deriveIndicators_err_density (deriveStrippedCol_err_getCol hkey)

/-- Witness for `missing_column_fatal_c7`: inputs lacking the
urban-percentage column. -/
theorem missing_column_fatal_c7_witness :
    exOk (process_files (Table.mk [("statename", Column.strCol [some "A"])])
        (RawCsv.mk [(popKeyName, [some "A"])])
        (RawCsv.mk [("States/UTs", [some "A"]), ("Net area sown", [some "1"]),
                    ("Forests", [some "1"]), ("Density", [some "1"])])) = false :=
  missing_column_fatal_c7 (Table.mk [("statename", Column.strCol [some "A"])])
    (RawCsv.mk [(popKeyName, [some "A"])])
    (RawCsv.mk [("States/UTs", [some "A"]), ("Net area sown", [some "1"]),
                ("Forests", [some "1"]), ("Density", [some "1"])])
    "Urban pop. In %" (Or.inl rfl) (by decide) (by decide) (by decide)

/-- Claim C8, counterexample: a negative source value yields a negative
indicator (the derivation does not force a non-negative domain), and an
unparseable source string raises instead of resolving to 0.0. -/
theorem indicator_values_c8_counterexample :
    deriveNumCol (Table.mk [("Net area sown", Column.numCol [some (-5)])]) "Net area sown" =
      Except.ok [-5] ∧
    ((-5 : ℚ) < 0) ∧
    exOk (deriveStrippedCol (Table.mk [("Density", Column.strCol [some "abc"])])
        "Density" ',') = false := by decide

/-- Claim C8 (amended): when an indicator derivation succeeds it returns a
total list of rationals — one value per joined row, never null: null
source cells resolve to 0.0 and non-null cells carry their parsed
normalized value.  Values may be negative, and unparseable source strings
abort the derivation instead of resolving to 0.0. -/
theorem indicator_values_c8 :
    (∀ (gdf : Table) (n : String) (ch : Char) (cells : List (Option String)) (vals : List ℚ),
        getCol gdf n = Except.ok (Column.strCol cells) →
        deriveStrippedCol gdf n ch = Except.ok vals →
        vals.length = cells.length ∧
        (∀ i (hc : i < cells.length) (hv : i < vals.length),
          cells[i] = none → vals[i] = 0) ∧
        (∀ i (hc : i < cells.length) (hv : i < vals.length) (s : String),
          cells[i] = some s → parseFloat (removeAll ch s) = some vals[i])) ∧
    (∀ (gdf : Table) (n : String) (cs : List (Option ℚ)) (vals : List ℚ),
        getCol gdf n = Except.ok (Column.numCol cs) →
        deriveNumCol gdf n = Except.ok vals →
        vals = cs.map (fun c => c.getD 0)) := by
  constructor
  · intro gdf n ch cells vals hcol hok
    rw [deriveStrippedCol_eq hcol] at hok
    cases hmm : exMapM parseCell (cells.map (fun oc => oc.map (removeAll ch))) with
    | error e => rw [hmm] at hok; cases hok
    | ok parsed =>
      rw [hmm] at hok
      cases hok
      obtain ⟨hlen, hget⟩ := exMapM_ok_spec hmm
      rw [List.length_map] at hlen
      refine ⟨by simp [fillna0, hlen], ?_, ?_⟩
      · intro i hc hv hnone
        have hpi : i < parsed.length := by
          simpa [fillna0] using hv
        have hmi : i < (cells.map (fun oc => oc.map (removeAll ch))).length := by
          simpa using hc
        have hcellv := hget i hmi hpi
        rw [List.getElem_map, hnone] at hcellv
        have hcv : Except.ok (none : Option ℚ) =
            (Except.ok parsed[i] : Except String (Option ℚ)) := hcellv
        injection hcv with h2
        simp [fillna0, ← h2]
      · intro i hc hv s hsome
        have hpi : i < parsed.length := by
          simpa [fillna0] using hv
        have hmi : i < (cells.map (fun oc => oc.map (removeAll ch))).length := by
          simpa using hc
        have hcellv := hget i hmi hpi
        rw [List.getElem_map, hsome] at hcellv
        have hcv : (match parseFloat (removeAll ch s) with
            | some q => Except.ok (some q)
            | none => Except.error
                ("ValueError: could not convert string to float: " ++ removeAll ch s)) =
            (Except.ok parsed[i] : Except String (Option ℚ)) := hcellv
        cases hpf : parseFloat (removeAll ch s) with
        | none => rw [hpf] at hcv; cases hcv
        | some q =>
          rw [hpf] at hcv
          injection hcv with h2
          simp [fillna0, ← h2]
  · intro gdf n cs vals hcol hok
    unfold deriveNumCol at hok
    rw [hcol] at hok
    cases hok
    rfl

/-- Witness for `indicator_values_c8` at concrete inputs. -/
theorem indicator_values_c8_witness :
    ([(65 : ℚ), 0] : List ℚ).length = ([some "65%", none] : List (Option String)).length ∧
    ([0] : List ℚ) = ([none] : List (Option ℚ)).map (fun c => c.getD 0) :=
  ⟨(indicator_values_c8.1
      (Table.mk [("Urban pop. In %", Column.strCol [some "65%", none])])
      "Urban pop. In %" '%' [some "65%", none] [65, 0] (by decide) (by decide)).1,
   indicator_values_c8.2 (Table.mk [("Forests", Column.numCol [none])]) "Forests" [none] [0]
      (by decide) (by decide)⟩

/-- Claim C9 (confirmed): the overlay styles every region with the same
fixed fill regardless of its recommendation, and the tooltip carries
exactly the two fields region name and recommendation with the aliases
"State:" and "Recommendation:". -/
theorem overlay_uniform_c9 :
    ∀ (gdf : Table) (title rc : String),
      (∀ i j : Nat,
        (create_map gdf title rc).1.style_function i =
          (create_map gdf title rc).1.style_function j) ∧
      (create_map gdf title rc).1.style_function 0 =
        MapStyle.mk "blue" (mkRat 6 10) (mkRat 5 10) ∧
      (create_map gdf title rc).1.tooltip.fields = ["statename", rc] ∧
      ((create_map gdf title rc).1.tooltip.fields).length = 2 ∧
      (create_map gdf title rc).1.tooltip.aliases = ["State:", "Recommendation:"] :=
  fun _ _ _ => ⟨fun _ _ => rfl, rfl, rfl, rfl, rfl⟩

/-- Claim C10 (confirmed): a column whose raw cells are all plain numbers
loads with a numeric dtype, and a numeric-dtype urban-percentage or
density column makes the string-replace normalization raise, aborting the
whole invocation — shown end to end on `numericPctPop`, whose only
urban-percentage value is the valid number "65". -/
theorem numeric_dtype_aborts_c10 :
    (∀ cells : List (Option String), cells.all numLike = true →
        isNumericCol (inferColumn cells) = true) ∧
    (∀ (gdf : Table) (cs : List (Option ℚ)),
        getCol gdf "Urban pop. In %" = Except.ok (Column.numCol cs) →
        exOk (deriveIndicators gdf) = false) ∧
    (∀ (gdf : Table) (cs : List (Option ℚ)),
        getCol gdf "Density" = Except.ok (Column.numCol cs) →
        exOk (deriveIndicators gdf) = false) ∧
    exOk (process_files numericPctGdf numericPctPop numericPctLand) = false := by
  refine ⟨?_, ?_, ?_, by decide⟩
  · intro cells hall
    unfold inferColumn
    rw [if_pos hall]
    rfl
  · intro gdf cs h
    exact deriveIndicators_err_urban (deriveStrippedCol_err_numeric h)
  · intro gdf cs h
    exact deriveIndicators_err_density (deriveStrippedCol_err_numeric h)

/-- Witness for `numeric_dtype_aborts_c10` at concrete inputs. -/
theorem numeric_dtype_aborts_c10_witness :
    isNumericCol (inferColumn [some "65"]) = true ∧
    exOk (deriveIndicators (Table.mk [("Urban pop. In %", Column.numCol [some 65])])) = false ∧
    exOk (deriveIndicators (Table.mk [("Density", Column.numCol [some 150])])) = false :=
  ⟨numeric_dtype_aborts_c10.1 [some "65"] (by decide),
   numeric_dtype_aborts_c10.2.1 (Table.mk [("Urban pop. In %", Column.numCol [some 65])])
      [some 65] (by decide),
   numeric_dtype_aborts_c10.2.2.1 (Table.mk [("Density", Column.numCol [some 150])])
      [some 150] (by decide)⟩

end App
